import Mathlib

/-!
Verification of the proxmox-fan-monitor control core.

Shallow embedding of the adaptive fan-control logic:
* `AutoStateManager` — the escalation / de-escalation state machine of
  `fancontrol/state_manager.py`;
* `SystemFanController` — the stepped PWM actuator of
  `fancontrol/controllers.py`;
* `GPUFanController` — the dual-mode GPU fan driver of
  `fancontrol/controllers.py`;
* the target lookup and OK/ADJ status computation of the orchestrator
  loop in `fan_control.py` (`main`).

Sensor values and timestamps (Python floats that the logic uses only
through subtraction and order comparisons) are modelled as exact integers,
PWM / percentage values as integers (Python ints).  External effects (sensor reads, sysfs writes,
`nvidia-settings` invocations) are modelled as explicit inputs and emitted
command lists.
-/

namespace FanMon

/-- A sensor snapshot: association list from sensor id to current value
(`sensor_values` dict passed to `AutoStateManager.update`). -/
abbrev Sensors := List (String × ℤ)

/-- `sensor_values.get(source, 0)` — a missing sensor reads as 0. -/
def getSensor (vals : Sensors) (src : String) : ℤ :=
  (vals.lookup src).getD 0

/-- Threshold table of one level: `{'cpu': 60, 'gpu': 70, ...}`, a mapping
from sensor id to an optional numeric limit (`None` allowed). -/
abbrev Thresh := List (String × Option ℤ)

/-- The legacy-format group configuration consumed by `AutoStateManager`
(`TARGETS`, `THRESHOLDS`, `DELAY_UP`, `HOLD_TIME`).  Mode keys are decimal
strings in the source; they are modelled by their numeric values. -/
structure AutoConfig where
  targets : List (ℕ × ℤ)
  thresholds : List (ℕ × Thresh)
  delay_up : ℤ
  hold_time : List (ℕ × ℤ)

/-- Status messages, abstracted to their branch identity (the numeric text
inside the Python f-strings is observability-only). -/
inductive AutoStatus
  | init
  | pending (lvl : ℕ)
  | escalated
  | locked
  | deescalated
  | stable
deriving DecidableEq

/-- Mutable state of an `AutoStateManager` instance. -/
structure AutoState where
  current_mode : ℕ
  last_mode_change_time : ℤ
  pending_mode : Option ℕ
  pending_start_time : ℤ
  status : AutoStatus
deriving DecidableEq

namespace AutoStateManager

/-- `'0' if '0' in config['TARGETS'] else '1'` — the baseline mode. -/
def baselineMode (cfg : AutoConfig) : ℕ :=
  if (cfg.targets.lookup 0).isSome then 0 else 1

/-- `sorted(config['THRESHOLDS'].keys(), key=int, reverse=True)`. -/
def mode_keys (cfg : AutoConfig) : List ℕ :=
  List.insertionSort (· ≥ ·) (cfg.thresholds.map Prod.fst)

/-- `self.config['THRESHOLDS'][mode]`. -/
def threshOf (cfg : AutoConfig) (mode : ℕ) : Thresh :=
  (cfg.thresholds.lookup mode).getD []

/-- The inner OR loop: some configured source with a non-`None` limit has a
current value strictly greater than the limit. -/
def triggered (vals : Sensors) (thresh : Thresh) : Bool :=
  thresh.any fun p =>
    match p.2 with
    | none => false
    | some limit => decide (limit < getSensor vals p.1)

/-- Step 1 of `AutoStateManager.update`: the "instant" mode.  Iterate the
mode keys from highest to lowest and stop at the first triggered level;
fall back to the baseline mode. -/
def instantMode (cfg : AutoConfig) (vals : Sensors) : ℕ :=
  match (mode_keys cfg).find? (fun m => triggered vals (threshOf cfg m)) with
  | some m => m
  | none => baselineMode cfg

/-- `self.config['HOLD_TIME'].get(self.current_mode, 30)`. -/
def holdFor (cfg : AutoConfig) (mode : ℕ) : ℤ :=
  (cfg.hold_time.lookup mode).getD 30

/-- `__init__`: baseline mode, no pending escalation. -/
def initState (cfg : AutoConfig) : AutoState :=
  { current_mode := baselineMode cfg
    last_mode_change_time := 0
    pending_mode := none
    pending_start_time := 0
    status := .init }

/-- `AutoStateManager.update(sensor_values)`.  `now` is the value of
`time.time()` at the call.  The Python method returns
`self.current_mode`, i.e. the `current_mode` field of the state this
function produces. -/
def update (cfg : AutoConfig) (st : AutoState) (now : ℤ) (vals : Sensors) :
    AutoState :=
  let inst := instantMode cfg vals
  if st.current_mode < inst then
    -- Escalation
    if st.pending_mode ≠ some inst then
      { st with pending_mode := some inst, pending_start_time := now
                status := .pending inst }
    else
      let elapsed := now - st.pending_start_time
      if cfg.delay_up ≤ elapsed then
        { st with current_mode := inst, last_mode_change_time := now
                  pending_mode := none, status := .escalated }
      else
        { st with status := .pending inst }
  else if inst < st.current_mode then
    -- De-escalation
    let hold := holdFor cfg st.current_mode
    let remaining := hold - (now - st.last_mode_change_time)
    if 0 < remaining then
      { st with pending_mode := none, status := .locked }
    else
      { st with pending_mode := none, current_mode := inst
                last_mode_change_time := now, status := .deescalated }
  else
    { st with pending_mode := none, status := .stable }

/-- One tick's inputs: the clock reading and the sensor snapshot. -/
structure TickInput where
  now : ℤ
  vals : Sensors
deriving DecidableEq

/-- A sequence of `update` calls. -/
def run (cfg : AutoConfig) (st : AutoState) : List TickInput → AutoState
  | [] => st
  | t :: rest => run cfg (update cfg st t.now t.vals) rest

/-- The level predicate as the spec words it: some sensor id named in the
level's thresholds with a non-null limit has a current value (0 when the
sensor is absent) strictly greater than the limit. -/
def levelHolds (cfg : AutoConfig) (vals : Sensors) (m : ℕ) : Prop :=
  ∃ src limit, (src, some limit) ∈ threshOf cfg m ∧ limit < getSensor vals src

theorem triggered_iff (cfg : AutoConfig) (vals : Sensors) (m : ℕ) :
    triggered vals (threshOf cfg m) = true ↔ levelHolds cfg vals m := by
  unfold triggered levelHolds
  rw [List.any_eq_true]
  constructor
  · rintro ⟨⟨src, lim⟩, hmem, hp⟩
    cases lim with
    | none => simp at hp
    | some limit =>
      exact ⟨src, limit, hmem, by simpa using hp⟩
  · rintro ⟨src, limit, hmem, hlt⟩
    exact ⟨(src, some limit), hmem, by simpa using hlt⟩

instance (cfg : AutoConfig) (vals : Sensors) (m : ℕ) :
    Decidable (levelHolds cfg vals m) :=
  decidable_of_iff _ (triggered_iff cfg vals m)

theorem mem_mode_keys (cfg : AutoConfig) (m : ℕ) :
    m ∈ mode_keys cfg ↔ m ∈ cfg.thresholds.map Prod.fst := by
  unfold mode_keys
  exact (List.perm_insertionSort _ _).mem_iff

theorem mode_keys_sorted (cfg : AutoConfig) :
    (mode_keys cfg).Sorted (· ≥ ·) :=
  List.sorted_insertionSort _ _

/-- In a `(· ≥ ·)`-sorted list, the first element satisfying `p` is maximal
among all elements satisfying `p`. -/
theorem find?_sorted_ge_max {l : List ℕ} (hs : l.Sorted (· ≥ ·))
    {p : ℕ → Bool} {x : ℕ} (hfind : l.find? p = some x) :
    ∀ y ∈ l, p y = true → y ≤ x := by
  induction l with
  | nil => simp at hfind
  | cons a t ih =>
    rcases List.sorted_cons.mp hs with ⟨ha, ht⟩
    by_cases hpa : p a = true
    · rw [List.find?_cons_of_pos _ hpa] at hfind
      cases hfind
      intro y hy _
      rcases List.mem_cons.mp hy with rfl | hyt
      · exact le_refl _
      · exact ha y hyt
    · rw [List.find?_cons_of_neg _ (by simpa using hpa)] at hfind
      intro y hy hpy
      rcases List.mem_cons.mp hy with rfl | hyt
      · exact absurd hpy hpa
      · exact ih ht hfind y hyt hpy

theorem instantMode_of_find?_none (cfg : AutoConfig) (vals : Sensors)
    (h : (mode_keys cfg).find? (fun m => triggered vals (threshOf cfg m)) = none) :
    instantMode cfg vals = baselineMode cfg := by
  unfold instantMode
  rw [h]

theorem instantMode_of_find?_some (cfg : AutoConfig) (vals : Sensors) (x : ℕ)
    (h : (mode_keys cfg).find? (fun m => triggered vals (threshOf cfg m)) = some x) :
    instantMode cfg vals = x := by
  unfold instantMode
  rw [h]

/-- C1: for every sensor-value mapping and group configuration, the instant
level computed by `AutoStateManager.update` is the highest configured level
whose predicate holds, where a level's predicate holds as soon as any sensor
id named in that level's thresholds with a non-null limit has a current
value (0 when the sensor id is absent from the mapping) strictly greater
than the limit; a sensor exactly equal to its limit never triggers, and
when no level's predicate holds the instant level is the baseline (0, or 1
when the group has no level-0 profile). -/
theorem instant_level_is_highest_triggered (cfg : AutoConfig) (vals : Sensors) :
    (baselineMode cfg = if (cfg.targets.lookup 0).isSome then 0 else 1) ∧
    ((∀ m ∈ cfg.thresholds.map Prod.fst, ¬ levelHolds cfg vals m) →
      instantMode cfg vals = baselineMode cfg) ∧
    (∀ m ∈ cfg.thresholds.map Prod.fst, levelHolds cfg vals m →
      instantMode cfg vals ∈ cfg.thresholds.map Prod.fst ∧
      levelHolds cfg vals (instantMode cfg vals) ∧
      m ≤ instantMode cfg vals) := by
  refine ⟨rfl, ?_, ?_⟩
  · intro hnone
    cases hf : (mode_keys cfg).find? (fun m => triggered vals (threshOf cfg m)) with
    | none => exact instantMode_of_find?_none cfg vals hf
    | some x =>
      exfalso
      have hx : x ∈ mode_keys cfg := List.mem_of_find?_eq_some hf
      have hpx : triggered vals (threshOf cfg x) = true := by
        simpa using List.find?_some hf
      exact hnone x ((mem_mode_keys cfg x).mp hx) ((triggered_iff cfg vals x).mp hpx)
  · intro m hm hholds
    cases hf : (mode_keys cfg).find? (fun m => triggered vals (threshOf cfg m)) with
    | none =>
      exfalso
      have := List.find?_eq_none.mp hf m ((mem_mode_keys cfg m).mpr hm)
      exact this (by simpa using (triggered_iff cfg vals m).mpr hholds)
    | some x =>
      have hx : x ∈ mode_keys cfg := List.mem_of_find?_eq_some hf
      have hpx : triggered vals (threshOf cfg x) = true := by
        simpa using List.find?_some hf
      have hmax : m ≤ x :=
        find?_sorted_ge_max (mode_keys_sorted cfg) hf m
          ((mem_mode_keys cfg m).mpr hm)
          (by simpa using (triggered_iff cfg vals m).mpr hholds)
      rw [instantMode_of_find?_some cfg vals x hf]
      exact ⟨(mem_mode_keys cfg x).mp hx, (triggered_iff cfg vals x).mp hpx, hmax⟩

/-- Example configuration used to exercise the theorems on concrete data
(shape of the scenario in the spec: three profiles, cpu thresholds 60 / 70,
`delay_up = 5`, `hold_time = 40`). -/
def cfgEx : AutoConfig :=
  { targets := [(0, 1200), (1, 1600), (2, 2000)]
    thresholds := [(1, [("cpu", some 60)]), (2, [("cpu", some 70)])]
    delay_up := 5
    hold_time := [(1, 40), (2, 40)] }

/-- Witness for C1: with `cpu = 75` both level predicates hold and the
instant level is the highest one, level 2. -/
theorem instant_level_is_highest_triggered_witness :
    instantMode cfgEx [("cpu", 75)] = 2 ∧
    1 ∈ cfgEx.thresholds.map Prod.fst ∧
    levelHolds cfgEx [("cpu", 75)] 1 ∧
    1 ≤ instantMode cfgEx [("cpu", 75)] :=
  ⟨by decide, by decide, by decide,
    ((instant_level_is_highest_triggered cfgEx [("cpu", 75)]).2.2 1
      (by decide) (by decide)).2.2⟩

theorem update_def (cfg : AutoConfig) (st : AutoState) (now : ℤ) (vals : Sensors) :
    update cfg st now vals =
      if st.current_mode < instantMode cfg vals then
        if st.pending_mode ≠ some (instantMode cfg vals) then
          { st with pending_mode := some (instantMode cfg vals)
                    pending_start_time := now
                    status := .pending (instantMode cfg vals) }
        else if cfg.delay_up ≤ now - st.pending_start_time then
          { st with current_mode := instantMode cfg vals
                    last_mode_change_time := now
                    pending_mode := none, status := .escalated }
        else
          { st with status := .pending (instantMode cfg vals) }
      else if instantMode cfg vals < st.current_mode then
        if 0 < holdFor cfg st.current_mode - (now - st.last_mode_change_time) then
          { st with pending_mode := none, status := .locked }
        else
          { st with pending_mode := none
                    current_mode := instantMode cfg vals
                    last_mode_change_time := now, status := .deescalated }
      else
        { st with pending_mode := none, status := .stable } := rfl

/-- `update` raises `current_mode` only by committing a pending escalation:
the raised-to level was already pending before the call and the configured
delay has elapsed since `pending_start_time`. -/
theorem update_mode_increase (cfg : AutoConfig) (st : AutoState) (now : ℤ)
    (vals : Sensors)
    (h : st.current_mode < (update cfg st now vals).current_mode) :
    st.pending_mode = some ((update cfg st now vals).current_mode) ∧
    (update cfg st now vals).current_mode = instantMode cfg vals ∧
    cfg.delay_up ≤ now - st.pending_start_time ∧
    (update cfg st now vals).pending_mode = none ∧
    (update cfg st now vals).last_mode_change_time = now := by
  rw [update_def] at h ⊢
  split_ifs at h ⊢ with h1 h2 h3 h4 h5
  all_goals simp_all

/-- A pending level after `update` is exactly the instant level of that
call, lies strictly above `current_mode` before the call, and its start
time is either inherited (the level was already pending) or `now` (it was
just recorded). -/
theorem update_pending_sound (cfg : AutoConfig) (st : AutoState) (now : ℤ)
    (vals : Sensors) (m : ℕ)
    (h : (update cfg st now vals).pending_mode = some m) :
    instantMode cfg vals = m ∧ st.current_mode < m ∧
    ((st.pending_mode = some m ∧
        (update cfg st now vals).pending_start_time = st.pending_start_time)
      ∨ (update cfg st now vals).pending_start_time = now) := by
  rw [update_def] at h ⊢
  split_ifs at h ⊢ with h1 h2 h3 h4 h5
  all_goals simp_all

/-- The tick on which a higher instant level is first observed only records
it as pending: `current_mode` (the returned mode) is unchanged. -/
theorem update_first_observation (cfg : AutoConfig) (st : AutoState)
    (now : ℤ) (vals : Sensors)
    (h1 : st.current_mode < instantMode cfg vals)
    (h2 : st.pending_mode ≠ some (instantMode cfg vals)) :
    update cfg st now vals =
      { st with pending_mode := some (instantMode cfg vals)
                pending_start_time := now
                status := .pending (instantMode cfg vals) } := by
  rw [update_def, if_pos h1, if_pos h2]

/-- Provenance of a pending escalation across a sequence of updates: either
it was already pending initially and every processed tick kept observing
its level, or it was first recorded on some processed tick `t₀` (whose
clock value is the recorded `pending_start_time`) and every later tick kept
observing its level. -/
theorem run_pending_origin (cfg : AutoConfig) :
    ∀ (inputs : List TickInput) (st : AutoState) (m : ℕ),
      (run cfg st inputs).pending_mode = some m →
      (st.pending_mode = some m ∧
         (run cfg st inputs).pending_start_time = st.pending_start_time ∧
         ∀ t ∈ inputs, instantMode cfg t.vals = m)
      ∨ (∃ pre t rest, inputs = pre ++ t :: rest ∧
           t.now = (run cfg st inputs).pending_start_time ∧
           instantMode cfg t.vals = m ∧
           ∀ u ∈ rest, instantMode cfg u.vals = m) := by
  intro inputs
  induction inputs with
  | nil =>
    intro st m h
    exact Or.inl ⟨h, rfl, by simp⟩
  | cons x xs ih =>
    intro st m h
    simp only [run] at h ⊢
    rcases ih (update cfg st x.now x.vals) m h with
      ⟨hp, hstart, hall⟩ | ⟨pre, t, rest, heq, hnow, hinst, hall⟩
    · rcases update_pending_sound cfg st x.now x.vals m hp with
        ⟨hinstx, _, hcase⟩
      rcases hcase with ⟨hpend0, hkeep⟩ | hset
      · left
        refine ⟨hpend0, hstart.trans hkeep, ?_⟩
        intro t ht
        rcases List.mem_cons.mp ht with rfl | htxs
        · exact hinstx
        · exact hall t htxs
      · right
        exact ⟨[], x, xs, rfl, (hstart.trans hset).symm, hinstx, hall⟩
    · right
      exact ⟨x :: pre, t, rest, by rw [heq]; rfl, hnow, hinst, hall⟩

/-- C2: for every sequence of `AutoStateManager.update` calls, an
escalation (`currentMode` increasing) is never committed before `delayUp`
seconds of continuously observed pending escalation level; on the tick
where a higher instant level is first observed, `update` records it as
pending and returns the unchanged `currentMode`, so a single-tick spike of
duration below `delayUp` never changes `currentMode`. -/
theorem escalation_commits_only_after_delay (cfg : AutoConfig) :
    (∀ (st : AutoState) (now : ℤ) (vals : Sensors),
       st.current_mode < instantMode cfg vals →
       st.pending_mode ≠ some (instantMode cfg vals) →
       (update cfg st now vals).current_mode = st.current_mode ∧
       (update cfg st now vals).pending_mode = some (instantMode cfg vals) ∧
       (update cfg st now vals).pending_start_time = now) ∧
    (∀ (st : AutoState) (n1 : ℤ) (s1 : Sensors) (n2 : ℤ) (s2 : Sensors),
       st.current_mode < instantMode cfg s1 →
       st.pending_mode ≠ some (instantMode cfg s1) →
       instantMode cfg s2 = st.current_mode →
       (update cfg (update cfg st n1 s1) n2 s2).current_mode =
         st.current_mode) ∧
    (∀ (st : AutoState) (pre : List TickInput) (t : TickInput),
       st.pending_mode = none →
       (run cfg st pre).current_mode <
         (update cfg (run cfg st pre) t.now t.vals).current_mode →
       ∃ pre₁ t₀ pre₂, pre = pre₁ ++ t₀ :: pre₂ ∧
         cfg.delay_up ≤ t.now - t₀.now ∧
         instantMode cfg t₀.vals =
           (update cfg (run cfg st pre) t.now t.vals).current_mode ∧
         (∀ u ∈ pre₂, instantMode cfg u.vals =
           (update cfg (run cfg st pre) t.now t.vals).current_mode) ∧
         instantMode cfg t.vals =
           (update cfg (run cfg st pre) t.now t.vals).current_mode) := by
  refine ⟨?_, ?_, ?_⟩
  · intro st now vals h1 h2
    rw [update_first_observation cfg st now vals h1 h2]
    exact ⟨rfl, rfl, rfl⟩
  · intro st n1 s1 n2 s2 h1 h2 h3
    have e1 := update_first_observation cfg st n1 s1 h1 h2
    have ecur : (update cfg st n1 s1).current_mode = st.current_mode := by
      rw [e1]
    rw [update_def,
      if_neg (by rw [ecur, h3]; exact lt_irrefl _),
      if_neg (by rw [ecur, h3]; exact lt_irrefl _)]
    simpa using ecur
  · intro st pre t hclean hinc
    rcases update_mode_increase cfg (run cfg st pre) t.now t.vals hinc with
      ⟨hpend, hinstt, hdelay, -, -⟩
    rcases run_pending_origin cfg pre st _ hpend with
      ⟨hp0, -, -⟩ | ⟨pre₁, t₀, pre₂, heq, hnow, hinst0, hall⟩
    · rw [hclean] at hp0
      exact absurd hp0 (by simp)
    · refine ⟨pre₁, t₀, pre₂, heq, ?_, hinst0, hall, hinstt.symm⟩
      rw [hnow]
      exact hdelay

/-- First tick of the escalation scenario: `cpu = 75` at time 0. -/
def tick0Ex : TickInput := ⟨0, [("cpu", 75)]⟩

/-- Second tick of the escalation scenario: `cpu = 75` at time 6. -/
def tick1Ex : TickInput := ⟨6, [("cpu", 75)]⟩

/-- Witness for C2: from the initial state, `cpu = 75` observed at time 0
and again at time 6 (past `delay_up = 5`) commits an escalation, and the
sequence part of the theorem locates the tick that started the pending
window. -/
theorem escalation_commits_only_after_delay_witness :
    (initState cfgEx).pending_mode = none ∧
    (run cfgEx (initState cfgEx) [tick0Ex]).current_mode <
      (update cfgEx (run cfgEx (initState cfgEx) [tick0Ex])
        tick1Ex.now tick1Ex.vals).current_mode ∧
    (∃ pre₁ t₀ pre₂, [tick0Ex] = pre₁ ++ t₀ :: pre₂ ∧
       cfgEx.delay_up ≤ tick1Ex.now - t₀.now ∧
       instantMode cfgEx t₀.vals =
         (update cfgEx (run cfgEx (initState cfgEx) [tick0Ex])
           tick1Ex.now tick1Ex.vals).current_mode ∧
       (∀ u ∈ pre₂, instantMode cfgEx u.vals =
         (update cfgEx (run cfgEx (initState cfgEx) [tick0Ex])
           tick1Ex.now tick1Ex.vals).current_mode) ∧
       instantMode cfgEx tick1Ex.vals =
         (update cfgEx (run cfgEx (initState cfgEx) [tick0Ex])
           tick1Ex.now tick1Ex.vals).current_mode) :=
  ⟨by decide, by decide,
    (escalation_commits_only_after_delay cfgEx).2.2 (initState cfgEx)
      [tick0Ex] tick1Ex (by decide) (by decide)⟩

/-- C3: for every sequence of `AutoStateManager.update` calls, a
de-escalation (`currentMode` decreasing) is never committed before
`holdTime` seconds have elapsed since `lastModeChangeTime`, even when the
instant level drops immediately; while the hold is active `currentMode`
stays unchanged, and once the hold has elapsed the commit sets
`currentMode` to the instant level and updates `lastModeChangeTime`.
(The elapsed-hold test reads only `lastModeChangeTime`, which `update`
itself maintains, so the per-call statement covers every call sequence.) -/
theorem deescalation_respects_hold (cfg : AutoConfig) (st : AutoState)
    (now : ℤ) (vals : Sensors) :
    ((update cfg st now vals).current_mode < st.current_mode →
       holdFor cfg st.current_mode ≤ now - st.last_mode_change_time ∧
       (update cfg st now vals).current_mode = instantMode cfg vals ∧
       (update cfg st now vals).last_mode_change_time = now) ∧
    (instantMode cfg vals < st.current_mode →
       now - st.last_mode_change_time < holdFor cfg st.current_mode →
       update cfg st now vals =
         { st with pending_mode := none, status := .locked }) ∧
    (instantMode cfg vals < st.current_mode →
       holdFor cfg st.current_mode ≤ now - st.last_mode_change_time →
       (update cfg st now vals).current_mode = instantMode cfg vals ∧
       (update cfg st now vals).last_mode_change_time = now ∧
       (update cfg st now vals).status = .deescalated) := by
  refine ⟨?_, ?_, ?_⟩
  · intro hlt
    rw [update_def] at hlt ⊢
    split_ifs at hlt ⊢ with h1 h2 h3 h4 h5
    all_goals simp_all
    all_goals omega
  · intro h1 h2
    rw [update_def,
      if_neg (show ¬ st.current_mode < instantMode cfg vals by omega),
      if_pos h1, if_pos (show 0 < holdFor cfg st.current_mode -
        (now - st.last_mode_change_time) by omega)]
  · intro h1 h2
    rw [update_def,
      if_neg (show ¬ st.current_mode < instantMode cfg vals by omega),
      if_pos h1, if_neg (show ¬ 0 < holdFor cfg st.current_mode -
        (now - st.last_mode_change_time) by omega)]
    exact ⟨rfl, rfl, rfl⟩

/-- A state locked at level 2 whose last mode change happened at time 6. -/
def stHoldEx : AutoState :=
  { current_mode := 2, last_mode_change_time := 6, pending_mode := none
    pending_start_time := 0, status := .escalated }

/-- Witness for C3: with `cpu = 50` the instant level drops to 0 while the
hold (40 s from time 6) is still active at time 10, so the state stays
locked at level 2. -/
theorem deescalation_respects_hold_witness :
    instantMode cfgEx [("cpu", 50)] < stHoldEx.current_mode ∧
    10 - stHoldEx.last_mode_change_time < holdFor cfgEx stHoldEx.current_mode ∧
    update cfgEx stHoldEx 10 [("cpu", 50)] =
      { stHoldEx with pending_mode := none, status := .locked } :=
  ⟨by decide, by decide,
    (deescalation_respects_hold cfgEx stHoldEx 10 [("cpu", 50)]).2.1
      (by decide) (by decide)⟩

/-- C10: during de-escalation evaluation, the hold duration is looked up
per current mode from the group's hold-time table (not a single per-group
value); whenever the current mode has no hold-time entry, a default hold of
30 seconds is used. -/
theorem hold_looked_up_per_mode_default_30 (cfg : AutoConfig)
    (st : AutoState) (now : ℤ) (vals : Sensors)
    (h : instantMode cfg vals < st.current_mode) :
    ((update cfg st now vals).current_mode = st.current_mode ↔
       now - st.last_mode_change_time <
         ((cfg.hold_time.lookup st.current_mode).getD 30)) ∧
    (cfg.hold_time.lookup st.current_mode = none →
       ((update cfg st now vals).current_mode = st.current_mode ↔
         now - st.last_mode_change_time < 30)) := by
  have hdef : holdFor cfg st.current_mode =
      (cfg.hold_time.lookup st.current_mode).getD 30 := rfl
  constructor
  · rw [update_def,
      if_neg (show ¬ st.current_mode < instantMode cfg vals by omega),
      if_pos h, ← hdef]
    split_ifs with h5
    · simp only [true_iff]
      omega
    · simp only []
      constructor
      · intro heq
        simp only [AutoState.current_mode] at heq
        omega
      · intro hlt
        omega
  · intro hnone
    rw [update_def,
      if_neg (show ¬ st.current_mode < instantMode cfg vals by omega),
      if_pos h]
    have h30 : holdFor cfg st.current_mode = 30 := by
      rw [hdef, hnone]
      rfl
    rw [← h30] at *
    split_ifs with h5
    · simp only [true_iff]
      omega
    · constructor
      · intro heq
        simp only [AutoState.current_mode] at heq
        omega
      · intro hlt
        omega

/-- A state at level 3 (no `HOLD_TIME` entry in `cfgEx`) whose last mode
change happened at time 0. -/
def stHold3Ex : AutoState :=
  { current_mode := 3, last_mode_change_time := 0, pending_mode := none
    pending_start_time := 0, status := .escalated }

/-- Witness for C10: mode 3 has no hold-time entry in `cfgEx`, so the
30-second default governs whether the mode stays locked. -/
theorem hold_looked_up_per_mode_default_30_witness :
    instantMode cfgEx [("cpu", 50)] < stHold3Ex.current_mode ∧
    cfgEx.hold_time.lookup stHold3Ex.current_mode = none ∧
    ((update cfgEx stHold3Ex 10 [("cpu", 50)]).current_mode =
        stHold3Ex.current_mode ↔
      10 - stHold3Ex.last_mode_change_time < 30) :=
  ⟨by decide, by decide,
    (hold_looked_up_per_mode_default_30 cfgEx stHold3Ex 10 [("cpu", 50)]
      (by decide)).2 (by decide)⟩

end AutoStateManager

/-- A command issued to `nvidia-settings`:
`[gpu:i]/GPUFanControlState=v` or `[fan:idx]/GPUTargetFanSpeed=pct`. -/
inductive GpuCmd
  | controlState (v : ℤ)
  | fanSpeed (fan : ℤ) (pct : ℤ)
deriving DecidableEq

/-- State of a `GPUFanController` instance (`fancontrol/controllers.py`).
`display` and `gpu_index` only select the addressed device. -/
structure GpuState where
  display : String
  gpu_index : ℤ
  fan_indices : List ℤ
  current_pct : ℤ
  target_rpm : ℤ
  current_rpm : ℤ
  actual_pct : ℤ
  is_manual_active : Bool
deriving DecidableEq

namespace GPUFanController

/-- `GPUFanController.reset`: force the GPU back to driver/auto control.
(`subprocess.run` without `check=True` does not raise on command failure,
so the `except` branch is unreachable and the flag updates always run.) -/
def reset (st : GpuState) : GpuState × List GpuCmd :=
  ({ st with is_manual_active := false, current_pct := 0 },
   [.controlState 0])

/-- `GPUFanController.set_speed_pct(target_pct)`: clamp to [0, 100]; 0
reverts to auto control via `reset`; otherwise sync the start point when
manual control is not yet active, re-assert manual control, command every
bound fan index to the clamped percentage and remember it. -/
def set_speed_pct (st : GpuState) (p : ℤ) : GpuState × List GpuCmd :=
  let target_pct := max 0 (min 100 p)
  if target_pct = 0 then
    reset st
  else
    let st₁ :=
      if st.is_manual_active = false ∧ 0 < st.actual_pct then
        { st with current_pct := st.actual_pct }
      else st
    ({ st₁ with is_manual_active := true, current_pct := target_pct },
     .controlState 1 :: st₁.fan_indices.map (fun i => GpuCmd.fanSpeed i target_pct))

/-- `GPUFanController.set_target_rpm(rpm)`. -/
def set_target_rpm (st : GpuState) (rpm : ℤ) : GpuState :=
  { st with target_rpm := rpm }

/-- `GPUFanController.get_rpm`: on a successful query (`some (pct, rpm)`),
record the fan's reported percentage and RPM and return the RPM; on
failure return 0 leaving the state untouched. -/
def read_fan (st : GpuState) (reading : Option (ℤ × ℤ)) : GpuState × ℤ :=
  match reading with
  | some pr => ({ st with actual_pct := pr.1, current_rpm := pr.2 }, pr.2)
  | none => (st, 0)

/-- `GPUFanController.update`: read the RPM, sync `current_pct` with the
observed percentage while manual control is inactive, and when
`target_rpm > 100` run one closed-loop step: error outside the ±50 RPM
tolerance steps the percentage by 1 / 2 / 5 (signed by the error), clamps
it to [20, 100] and applies it via `set_speed_pct`. -/
def update (st : GpuState) (reading : Option (ℤ × ℤ)) :
    GpuState × List GpuCmd :=
  let res := read_fan st reading
  let st₁ := { res.1 with current_rpm := res.2 }
  let st₂ : GpuState :=
    if st₁.is_manual_active = true then st₁
    else { st₁ with current_pct := st₁.actual_pct }
  if 100 < st₂.target_rpm then
    let error := st₂.target_rpm - st₂.current_rpm
    if 50 < |error| then
      let step : ℤ := if 400 < |error| then 5 else if 200 < |error| then 2 else 1
      let pct₁ :=
        if 0 < error then st₂.current_pct + step else st₂.current_pct - step
      let pct₂ := max 20 (min 100 pct₁)
      let st₃ := { st₂ with current_pct := pct₂ }
      set_speed_pct st₃ pct₂
    else (st₂, [])
  else (st₂, [])

/-- Every fan-speed command emitted by `set_speed_pct` carries the clamped
percentage. -/
theorem set_speed_pct_fanSpeed_mem (st : GpuState) (p fan pct : ℤ)
    (h : GpuCmd.fanSpeed fan pct ∈ (set_speed_pct st p).2) :
    pct = max 0 (min 100 p) := by
  simp only [set_speed_pct, reset] at h
  split_ifs at h with h1 h2
  · simp at h
  · simp only [List.mem_cons, List.mem_map] at h
    rcases h with h | ⟨i, -, h⟩
    · exact absurd h (by simp)
    · cases h
      rfl
  · simp only [List.mem_cons, List.mem_map] at h
    rcases h with h | ⟨i, -, h⟩
    · exact absurd h (by simp)
    · cases h
      rfl

/-- C4: for every reachable GPU actuator state with closed-loop mode
active (`targetRPM > 100`), every fan-speed command issued by
`GPUFanController.update` carries a percentage of at least 20 (and at most
100), even when the RPM error is negative and stepping down would
otherwise take the percentage below 20. -/
theorem closed_loop_never_commands_below_20 (st : GpuState)
    (reading : Option (ℤ × ℤ)) (h : 100 < st.target_rpm) :
    ∀ fan pct, GpuCmd.fanSpeed fan pct ∈ (update st reading).2 →
      20 ≤ pct ∧ pct ≤ 100 := by
  intro fan pct hmem
  cases reading with
  | none =>
    simp only [update, read_fan] at hmem
    split_ifs at hmem
    all_goals
      first
        | (have hp := set_speed_pct_fanSpeed_mem _ _ _ _ hmem
           omega)
        | simp at hmem
  | some pr =>
    simp only [update, read_fan] at hmem
    split_ifs at hmem
    all_goals
      first
        | (have hp := set_speed_pct_fanSpeed_mem _ _ _ _ hmem
           omega)
        | simp at hmem

/-- A GPU actuator state in closed-loop mode with a 2000 RPM target. -/
def gpuStEx : GpuState :=
  { display := ":0", gpu_index := 0, fan_indices := [0, 1]
    current_pct := 0, target_rpm := 2000, current_rpm := 0
    actual_pct := 0, is_manual_active := false }

/-- Witness for C4 at a concrete state whose update issues commands. -/
theorem closed_loop_never_commands_below_20_witness :
    100 < gpuStEx.target_rpm ∧
    GpuCmd.fanSpeed 0 20 ∈ (update gpuStEx none).2 ∧
    (∀ fan pct, GpuCmd.fanSpeed fan pct ∈ (update gpuStEx none).2 →
      20 ≤ pct ∧ pct ≤ 100) :=
  ⟨by decide, by decide,
    closed_loop_never_commands_below_20 gpuStEx none (by decide)⟩

/-- C8: for every prior actuator state, calling the GPU actuator's
open-loop path with percentage 0 (`set_speed_pct(0)`) results in the
manual-control-active flag being false and the remembered drive percentage
being 0, and issues no fan-speed commands (only the control-state reset
command). -/
theorem set_speed_pct_zero_resets (st : GpuState) :
    (set_speed_pct st 0).1.is_manual_active = false ∧
    (set_speed_pct st 0).1.current_pct = 0 ∧
    ∀ fan pct, GpuCmd.fanSpeed fan pct ∉ (set_speed_pct st 0).2 := by
  have h0 : max 0 (min 100 (0 : ℤ)) = 0 := by decide
  simp only [set_speed_pct, h0, reduceIte, reset]
  simp

/-- A GPU actuator state with manual control active at 55%. -/
def gpuStManualEx : GpuState :=
  { display := ":0", gpu_index := 0, fan_indices := [0, 1]
    current_pct := 55, target_rpm := 0, current_rpm := 1400
    actual_pct := 55, is_manual_active := true }

/-- Witness for C8 at a state where manual control was active. -/
theorem set_speed_pct_zero_resets_witness :
    (set_speed_pct gpuStManualEx 0).1.is_manual_active = false ∧
    (set_speed_pct gpuStManualEx 0).1.current_pct = 0 ∧
    ∀ fan pct, GpuCmd.fanSpeed fan pct ∉ (set_speed_pct gpuStManualEx 0).2 :=
  set_speed_pct_zero_resets gpuStManualEx

end GPUFanController

/-- Fan control constants of `fancontrol/controllers.py`. -/
def TOLERANCE : ℤ := 30

/-- Lower clamp of the PWM drive scale. -/
def PWM_MIN : ℤ := 0

/-- Upper clamp of the PWM drive scale. -/
def PWM_MAX : ℤ := 255

/-- Base step on the 0–255 drive scale. -/
def STEP_SIZE : ℤ := 2

/-- State of a `SystemFanController` instance. -/
structure SysFanState where
  current_pwm : ℤ
  current_rpm : ℤ
  target_rpm : ℤ
deriving DecidableEq

namespace SystemFanController

/-- `__init__` with `get_initial_pwm`: the stored PWM starts from the
sysfs reading (128 when the read fails), RPM 0, target 1200. -/
def initState (initialRead : Option ℤ) : SysFanState :=
  { current_pwm := initialRead.getD 128, current_rpm := 0, target_rpm := 1200 }

/-- `set_pwm(val)`: clamp to `[PWM_MIN, PWM_MAX]`, attempt the sysfs
write of the clamped value; only a successful write stores it into
`current_pwm` (the `except` branch leaves the field untouched).  Returns
the new state and the written value. -/
def set_pwm (st : SysFanState) (val : ℤ) (writeOk : Bool) :
    SysFanState × ℤ :=
  let v := max PWM_MIN (min PWM_MAX val)
  if writeOk then ({ st with current_pwm := v }, v) else (st, v)

/-- `update()`: read the RPM (0 on failure); when the error exceeds
`TOLERANCE`, step `current_pwm` in memory (before any clamping) and call
`set_pwm` with it.  Returns the new state and the list of values written
to the drive channel this tick. -/
def update (st : SysFanState) (rpmReading : Option ℤ) (writeOk : Bool) :
    SysFanState × List ℤ :=
  let rpm := rpmReading.getD 0
  let st₁ := { st with current_rpm := rpm }
  let error := st₁.target_rpm - st₁.current_rpm
  if TOLERANCE < |error| then
    let step := if 200 < |error| then STEP_SIZE * 2 else STEP_SIZE
    let pwm₁ :=
      if 0 < error then st₁.current_pwm + step else st₁.current_pwm - step
    let st₂ := { st₁ with current_pwm := pwm₁ }
    let res := set_pwm st₂ pwm₁ writeOk
    (res.1, [res.2])
  else (st₁, [])

/-- A sequence of `update` calls, each with its RPM reading and write
outcome. -/
def runUpdates (st : SysFanState) : List (Option ℤ × Bool) → SysFanState
  | [] => st
  | i :: rest => runUpdates (update st i.1 i.2).1 rest

/-- C5 counterexample: starting from the constructor state with an initial
sysfs PWM reading of 255 (in range), one update whose RPM read fails and
whose sysfs write fails leaves `current_pwm = 259`, outside [0,255] — the
stepped value is stored before clamping and a failed write is not rolled
back. -/
theorem drive_value_exceeds_255_after_failed_write :
    (update (initState (some 255)) none false).1.current_pwm = 259 ∧
    ¬ ((update (initState (some 255)) none false).1.current_pwm ≤ 255) := by
  decide

/-- One update only ever writes clamped values, and a successful write
keeps the stored drive value in range. -/
theorem update_clamps (st : SysFanState) :
    (∀ (r : Option ℤ) (ok : Bool), ∀ w ∈ (update st r ok).2,
       0 ≤ w ∧ w ≤ 255) ∧
    (∀ r : Option ℤ, 0 ≤ st.current_pwm → st.current_pwm ≤ 255 →
       0 ≤ (update st r true).1.current_pwm ∧
       (update st r true).1.current_pwm ≤ 255) := by
  constructor
  · intro r ok w hw
    simp only [update, set_pwm, TOLERANCE, STEP_SIZE, PWM_MIN, PWM_MAX] at hw
    split_ifs at hw <;> simp at hw <;> omega
  · intro r h0 h255
    simp only [update, set_pwm, TOLERANCE, STEP_SIZE, PWM_MIN, PWM_MAX]
    split_ifs <;> constructor <;> simp <;> omega

/-- PWM range preservation along a successful-write run. -/
theorem runUpdates_pwm_in_range :
    ∀ (inputs : List (Option ℤ × Bool)) (st : SysFanState),
      (∀ p ∈ inputs, p.2 = true) →
      0 ≤ st.current_pwm → st.current_pwm ≤ 255 →
      0 ≤ (runUpdates st inputs).current_pwm ∧
      (runUpdates st inputs).current_pwm ≤ 255 := by
  intro inputs
  induction inputs with
  | nil => intro st _ h0 h255; exact ⟨h0, h255⟩
  | cons i rest ih =>
    intro st hall h0 h255
    obtain ⟨r, ok⟩ := i
    have hok : ok = true := hall (r, ok) (by simp)
    subst hok
    have hstep := (update_clamps st).2 r h0 h255
    exact ih _ (fun p hp => hall p (List.mem_cons_of_mem _ hp)) hstep.1 hstep.2

/-- C5 (amended): every value written to the drive channel lies in
[0, 255]; and the in-memory drive value stays within [0, 255] across any
sequence of updates whose writes succeed (a failed write can instead leave
the unclamped stepped value in memory, as the counterexample shows). -/
theorem written_values_always_clamped :
    (∀ (st : SysFanState) (r : Option ℤ) (ok : Bool),
       ∀ w ∈ (update st r ok).2, 0 ≤ w ∧ w ≤ 255) ∧
    (∀ (st : SysFanState) (inputs : List (Option ℤ × Bool)),
       (∀ p ∈ inputs, p.2 = true) →
       0 ≤ st.current_pwm → st.current_pwm ≤ 255 →
       0 ≤ (runUpdates st inputs).current_pwm ∧
       (runUpdates st inputs).current_pwm ≤ 255) :=
  ⟨fun st r ok => (update_clamps st).1 r ok,
   fun st inputs hall h0 h255 => runUpdates_pwm_in_range inputs st hall h0 h255⟩

/-- Witness for C5 (amended): two successful ticks from the default
constructor state keep the drive value in range, and one tick's written
values are clamped. -/
theorem written_values_always_clamped_witness :
    (∀ w ∈ (update (initState (some 128)) (some 0) true).2,
       0 ≤ w ∧ w ≤ 255) ∧
    (∀ p ∈ [((some 0 : Option ℤ), true), ((some 1400 : Option ℤ), true)],
       p.2 = true) ∧
    (0 ≤ (initState (some 128)).current_pwm ∧
     (initState (some 128)).current_pwm ≤ 255) ∧
    (0 ≤ (runUpdates (initState (some 128))
            [(some 0, true), (some 1400, true)]).current_pwm ∧
     (runUpdates (initState (some 128))
            [(some 0, true), (some 1400, true)]).current_pwm ≤ 255) :=
  ⟨written_values_always_clamped.1 (initState (some 128)) (some 0) true,
   by decide, ⟨by decide, by decide⟩,
   written_values_always_clamped.2 (initState (some 128))
     [(some 0, true), (some 1400, true)] (by decide) (by decide) (by decide)⟩

/-- One closed-loop tick against a fixed (stable) simulated RPM feedback
`f` of the drive value: the RPM reading is `f` of the current drive value
and the write succeeds. -/
def simStep (f : ℤ → ℤ) (st : SysFanState) : SysFanState :=
  (update st (some (f st.current_pwm)) true).1

/-- `n` closed-loop ticks against the feedback `f`. -/
def simRun (f : ℤ → ℤ) (st : SysFanState) : ℕ → SysFanState
  | 0 => st
  | n + 1 => simStep f (simRun f st n)

/-- A stable feedback that jumps across the tolerance band between two
even drive values: 1169 RPM up to pwm 100, 1200 RPM at pwm 101, 1231 RPM
above. -/
def feedbackEx (p : ℤ) : ℤ :=
  if p ≤ 100 then 1169 else if p = 101 then 1200 else 1231

/-- C9 counterexample: for the monotone stable feedback `feedbackEx` the
target 1200 RPM is reachable (pwm 101 meets it exactly), yet starting from
an in-range drive value of 100 the controller enters a period-2 cycle
(state after 3 ticks equals state after 1 tick) in which the measured RPM
error always stays strictly above the tolerance: the ±2 step has even
parity and skips the band, so `|targetRPM − currentRPM| ≤ tolerance` is
never reached. -/
theorem stepped_controller_can_cycle_outside_band :
    ((0 : ℤ) ≤ 101 ∧ (101 : ℤ) ≤ 255 ∧
      |(initState (some 100)).target_rpm - feedbackEx 101| ≤ TOLERANCE) ∧
    simRun feedbackEx (initState (some 100)) 3 =
      simRun feedbackEx (initState (some 100)) 1 ∧
    TOLERANCE <
      |(initState (some 100)).target_rpm -
        (simRun feedbackEx (initState (some 100)) 1).current_rpm| ∧
    TOLERANCE <
      |(initState (some 100)).target_rpm -
        (simRun feedbackEx (initState (some 100)) 2).current_rpm| := by
  decide

/-- Arithmetic characterisation of one simulated tick's drive value. -/
theorem simStep_pwm_eq (f : ℤ → ℤ) (st : SysFanState) :
    (simStep f st).current_pwm =
      if 30 < |st.target_rpm - f st.current_pwm| then
        max 0 (min 255
          (if 0 < st.target_rpm - f st.current_pwm then
            st.current_pwm +
              (if 200 < |st.target_rpm - f st.current_pwm| then 4 else 2)
          else
            st.current_pwm -
              (if 200 < |st.target_rpm - f st.current_pwm| then 4 else 2)))
      else st.current_pwm := by
  simp only [simStep, update, set_pwm, TOLERANCE, STEP_SIZE, PWM_MIN,
    PWM_MAX, Option.getD]
  split_ifs <;> norm_num

/-- A simulated tick never changes the target. -/
theorem simStep_target (f : ℤ → ℤ) (st : SysFanState) :
    (simStep f st).target_rpm = st.target_rpm := by
  simp only [simStep, update, set_pwm]
  split_ifs <;> rfl

theorem simRun_target (f : ℤ → ℤ) (st : SysFanState) :
    ∀ n, (simRun f st n).target_rpm = st.target_rpm := by
  intro n
  induction n with
  | zero => rfl
  | succ n ih => rw [simRun, simStep_target, ih]

/-- Behaviour of one simulated tick under a monotone feedback with a
reachable in-band drive value `pstar`: inside the band the drive value
freezes; outside it, the drive value moves toward `pstar`, staying within
3 units once there and gaining at least 2 units of distance otherwise;
and it stays inside [0, 255]. -/
theorem simStep_behavior (f : ℤ → ℤ)
    (hf : ∀ a b : ℤ, a ≤ b → f a ≤ f b) (pstar : ℤ)
    (hp0 : 0 ≤ pstar) (hp255 : pstar ≤ 255) (st : SysFanState)
    (hband : |st.target_rpm - f pstar| ≤ 30)
    (h0 : 0 ≤ st.current_pwm) (h255 : st.current_pwm ≤ 255) :
    (|st.target_rpm - f st.current_pwm| ≤ 30 →
        (simStep f st).current_pwm = st.current_pwm) ∧
    (30 < |st.target_rpm - f st.current_pwm| →
      |st.current_pwm - pstar| ≤ 3 →
        |(simStep f st).current_pwm - pstar| ≤ 3) ∧
    (30 < |st.target_rpm - f st.current_pwm| →
      4 ≤ |st.current_pwm - pstar| →
        |(simStep f st).current_pwm - pstar| ≤ |st.current_pwm - pstar| - 2) ∧
    (0 ≤ (simStep f st).current_pwm ∧ (simStep f st).current_pwm ≤ 255) := by
  have hfle1 : st.current_pwm ≤ pstar → f st.current_pwm ≤ f pstar :=
    fun h => hf _ _ h
  have hfle2 : pstar ≤ st.current_pwm → f pstar ≤ f st.current_pwm :=
    fun h => hf _ _ h
  rw [simStep_pwm_eq f st]
  simp only [abs_eq_max_neg] at hband ⊢
  split_ifs
  all_goals omega

/-- C9 (amended): for a fixed (stable) monotone simulated RPM feedback
under which the target RPM is reachable at some drive value `pstar` in
[0, 255], repeatedly calling `SystemFanController.update` freezes the
drive value whenever the measured error is within tolerance, and within a
bounded number of ticks (126) reaches — and thereafter keeps — a state
that is inside the tolerance band or within 3 drive units (±1 step) of
`pstar`; the exact band `|targetRPM − currentRPM| ≤ tolerance` itself
need not be entered, since the even-parity ±2 step can straddle it (see
the counterexample). -/
theorem converges_to_tolerance_neighborhood (f : ℤ → ℤ)
    (hf : ∀ a b : ℤ, a ≤ b → f a ≤ f b) (pstar : ℤ)
    (hp0 : 0 ≤ pstar) (hp255 : pstar ≤ 255) (st : SysFanState)
    (hband : |st.target_rpm - f pstar| ≤ TOLERANCE)
    (h0 : 0 ≤ st.current_pwm) (h255 : st.current_pwm ≤ 255) :
    (∀ n, |st.target_rpm - f ((simRun f st n).current_pwm)| ≤ TOLERANCE →
        (simRun f st (n + 1)).current_pwm = (simRun f st n).current_pwm) ∧
    (∀ n, 126 ≤ n →
        |st.target_rpm - f ((simRun f st n).current_pwm)| ≤ TOLERANCE ∨
        |(simRun f st n).current_pwm - pstar| ≤ 3) := by
  have hT30 : TOLERANCE = (30 : ℤ) := rfl
  rw [hT30] at hband ⊢
  have hrange : ∀ n, 0 ≤ (simRun f st n).current_pwm ∧
      (simRun f st n).current_pwm ≤ 255 := by
    intro n
    induction n with
    | zero => exact ⟨h0, h255⟩
    | succ n ih =>
      have hb := simStep_behavior f hf pstar hp0 hp255 (simRun f st n)
        (by rw [simRun_target f st n]; exact hband) ih.1 ih.2
      exact hb.2.2.2
  have hfreeze : ∀ n,
      |st.target_rpm - f ((simRun f st n).current_pwm)| ≤ 30 →
      (simRun f st (n + 1)).current_pwm = (simRun f st n).current_pwm := by
    intro n hin
    have hb := simStep_behavior f hf pstar hp0 hp255 (simRun f st n)
      (by rw [simRun_target f st n]; exact hband) (hrange n).1 (hrange n).2
    exact hb.1 (by rw [simRun_target f st n]; exact hin)
  have habs : ∀ n,
      (|st.target_rpm - f ((simRun f st n).current_pwm)| ≤ 30 ∨
        |(simRun f st n).current_pwm - pstar| ≤ 3) →
      (|st.target_rpm - f ((simRun f st (n + 1)).current_pwm)| ≤ 30 ∨
        |(simRun f st (n + 1)).current_pwm - pstar| ≤ 3) := by
    intro n hg
    by_cases hin : |st.target_rpm - f ((simRun f st n).current_pwm)| ≤ 30
    · left
      rw [hfreeze n hin]
      exact hin
    · right
      have hnear : |(simRun f st n).current_pwm - pstar| ≤ 3 :=
        hg.resolve_left hin
      have hb := simStep_behavior f hf pstar hp0 hp255 (simRun f st n)
        (by rw [simRun_target f st n]; exact hband) (hrange n).1 (hrange n).2
      exact hb.2.1 (by rw [simRun_target f st n]; exact not_le.mp hin) hnear
  have hprog : ∀ n : ℕ,
      (|st.target_rpm - f ((simRun f st n).current_pwm)| ≤ 30 ∨
        |(simRun f st n).current_pwm - pstar| ≤ 3) ∨
      |(simRun f st n).current_pwm - pstar| ≤ 255 - 2 * (n : ℤ) := by
    intro n
    induction n with
    | zero =>
      right
      simp only [simRun, Nat.cast_zero, abs_eq_max_neg]
      omega
    | succ n ih =>
      by_cases hg : |st.target_rpm - f ((simRun f st n).current_pwm)| ≤ 30 ∨
          |(simRun f st n).current_pwm - pstar| ≤ 3
      · exact Or.inl (habs n hg)
      · rcases ih with hg' | hd
        · exact absurd hg' hg
        · right
          obtain ⟨hgA, hgB⟩ := not_or.mp hg
          have hb := simStep_behavior f hf pstar hp0 hp255 (simRun f st n)
            (by rw [simRun_target f st n]; exact hband)
            (hrange n).1 (hrange n).2
          have hstep := hb.2.2.1
            (by rw [simRun_target f st n]; exact not_le.mp hgA)
            (by have := not_le.mp hgB; omega)
          show |(simStep f (simRun f st n)).current_pwm - pstar| ≤ _
          push_cast
          omega
  refine ⟨hfreeze, ?_⟩
  intro n hn
  rcases hprog n with hg | hd
  · exact hg
  · right
    have hn' : (126 : ℤ) ≤ (n : ℤ) := by exact_mod_cast hn
    omega

/-- A simple monotone feedback: 10 RPM per drive unit. -/
def feedbackLinEx (p : ℤ) : ℤ := 10 * p

/-- Witness for C9 (amended) at the linear feedback, target 1200 RPM
reachable at drive value 120, starting from the constructor state. -/
theorem converges_to_tolerance_neighborhood_witness :
    (∀ a b : ℤ, a ≤ b → feedbackLinEx a ≤ feedbackLinEx b) ∧
    ((0 : ℤ) ≤ 120 ∧ (120 : ℤ) ≤ 255) ∧
    |(initState (some 128)).target_rpm - feedbackLinEx 120| ≤ TOLERANCE ∧
    (0 ≤ (initState (some 128)).current_pwm ∧
      (initState (some 128)).current_pwm ≤ 255) ∧
    ((∀ n, |(initState (some 128)).target_rpm -
          feedbackLinEx ((simRun feedbackLinEx (initState (some 128))
            n).current_pwm)| ≤ TOLERANCE →
        (simRun feedbackLinEx (initState (some 128)) (n + 1)).current_pwm =
          (simRun feedbackLinEx (initState (some 128)) n).current_pwm) ∧
     (∀ n, 126 ≤ n →
        |(initState (some 128)).target_rpm -
          feedbackLinEx ((simRun feedbackLinEx (initState (some 128))
            n).current_pwm)| ≤ TOLERANCE ∨
        |(simRun feedbackLinEx (initState (some 128)) n).current_pwm -
          120| ≤ 3)) :=
  ⟨fun a b h => by simp only [feedbackLinEx]; omega,
   ⟨by decide, by decide⟩, by decide, ⟨by decide, by decide⟩,
   converges_to_tolerance_neighborhood feedbackLinEx
     (fun a b h => by simp only [feedbackLinEx]; omega) 120
     (by decide) (by decide) (initState (some 128)) (by decide)
     (by decide) (by decide)⟩

end SystemFanController

namespace FanControlMain

/-- Target resolution for the system group in `fan_control.py` `main`:
`SYS_CONFIG['TARGETS'].get(sys_mode, 1200)`. -/
def sysTargetFor (targets : List (ℕ × ℤ)) (mode : ℕ) : ℤ :=
  (targets.lookup mode).getD 1200

/-- Target resolution for the GPU group in `fan_control.py` `main`:
`GPU_CONFIG['TARGETS'].get(gpu_mode, 0)`. -/
def gpuTargetFor (targets : List (ℕ × ℤ)) (mode : ℕ) : ℤ :=
  (targets.lookup mode).getD 0

/-- C6 counterexample: when the mode has no matching target entry, the
system group is driven at the fallback 1200 RPM — not the claimed uniform
safe default 0. -/
theorem missing_mode_system_default_is_1200_not_0 :
    sysTargetFor [] 5 = 1200 ∧ sysTargetFor [] 5 ≠ 0 := by
  decide

/-- C6 (amended): when the resolved mode index for a group has no matching
target in the configuration, the tick does not fail (the lookup is total
and falls back to a per-group default): the GPU group degrades to the safe
target 0, while the system group falls back to the 1200 RPM default. -/
theorem missing_mode_uses_per_group_default (targets : List (ℕ × ℤ))
    (mode : ℕ) (h : targets.lookup mode = none) :
    sysTargetFor targets mode = 1200 ∧ gpuTargetFor targets mode = 0 := by
  unfold sysTargetFor gpuTargetFor
  rw [h]
  exact ⟨rfl, rfl⟩

/-- Witness for C6 (amended) at an empty target table. -/
theorem missing_mode_uses_per_group_default_witness :
    (List.lookup 5 ([] : List (ℕ × ℤ)) = none) ∧
    sysTargetFor [] 5 = 1200 ∧ gpuTargetFor [] 5 = 0 :=
  ⟨by decide, missing_mode_uses_per_group_default [] 5 (by decide)⟩

/-- Status of a system fan in the tick snapshot
(`"OK" if abs(f.current_rpm - f.target_rpm) < TOLERANCE else "ADJ"`). -/
def sysFanStatus (rpm target : ℤ) : String :=
  if |rpm - target| < TOLERANCE then "OK" else "ADJ"

/-- Status of a GPU fan in the tick snapshot (`"OK" if gpu_target_pct == 0
or abs(pct - gpu_target_pct) <= 2 else "ADJ"`). -/
def gpuFanStatus (pct target_pct : ℤ) : String :=
  if target_pct = 0 ∨ |pct - target_pct| ≤ 2 then "OK" else "ADJ"

/-- C7 counterexample: a system fan 40 RPM away from target (within the
claimed 50-unit tolerance) is reported `ADJ`, and a GPU fan 3 points away
(also within 50) is reported `ADJ` — the snapshot statuses do not use a
common 50-unit tolerance. -/
theorem status_tolerance_is_not_50 :
    (|(1240 : ℤ) - 1200| ≤ 50 ∧ sysFanStatus 1240 1200 = "ADJ") ∧
    (|(53 : ℤ) - 50| ≤ 50 ∧ gpuFanStatus 53 50 = "ADJ") := by
  decide

/-- C7 (amended): in the tick snapshot a system fan is `OK` exactly when
its RPM deviates from target by strictly less than `TOLERANCE = 30`, and a
GPU fan is `OK` exactly when the target is 0 (auto) or its reported
percentage deviates from the target percentage by at most 2; otherwise the
status is `ADJ`. -/
theorem status_ok_iff (rpm target pct target_pct : ℤ) :
    TOLERANCE = 30 ∧
    (sysFanStatus rpm target = "OK" ↔ |rpm - target| < TOLERANCE) ∧
    (sysFanStatus rpm target ≠ "OK" → sysFanStatus rpm target = "ADJ") ∧
    (gpuFanStatus pct target_pct = "OK" ↔
      (target_pct = 0 ∨ |pct - target_pct| ≤ 2)) ∧
    (gpuFanStatus pct target_pct ≠ "OK" →
      gpuFanStatus pct target_pct = "ADJ") := by
  refine ⟨rfl, ?_, ?_, ?_, ?_⟩
  · unfold sysFanStatus
    split_ifs with h
    · exact ⟨fun _ => h, fun _ => rfl⟩
    · exact ⟨fun hx => absurd hx (by decide), fun hx => absurd hx h⟩
  · unfold sysFanStatus
    split_ifs with h
    · exact fun hx => absurd rfl hx
    · exact fun _ => rfl
  · unfold gpuFanStatus
    split_ifs with h
    · exact ⟨fun _ => h, fun _ => rfl⟩
    · exact ⟨fun hx => absurd hx (by decide), fun hx => absurd hx h⟩
  · unfold gpuFanStatus
    split_ifs with h
    · exact fun hx => absurd rfl hx
    · exact fun _ => rfl

/-- Witness for C7 (amended) at concrete readings. -/
theorem status_ok_iff_witness :
    TOLERANCE = 30 ∧
    (sysFanStatus 1240 1200 = "OK" ↔ |(1240 : ℤ) - 1200| < TOLERANCE) ∧
    (sysFanStatus 1240 1200 ≠ "OK" → sysFanStatus 1240 1200 = "ADJ") ∧
    (gpuFanStatus 53 50 = "OK" ↔ ((50 : ℤ) = 0 ∨ |(53 : ℤ) - 50| ≤ 2)) ∧
    (gpuFanStatus 53 50 ≠ "OK" → gpuFanStatus 53 50 = "ADJ") :=
  status_ok_iff 1240 1200 53 50

end FanControlMain

end FanMon
